import Mathlib

/-!
Verification of the PR Author Agent core (scripts/generate_pr.py and
scripts/template_engine.py): a shallow embedding of the Diff-Plan-to-Artifact
pipeline, followed by theorems about its claims.

Modelling conventions:
* Python `dict`-backed records become structures of `Option` fields; a direct
  `d["k"]` access is `getKey`, raising `PyErr.keyError` when absent, while
  `d.get("k", v)` is `Option.getD`.
* Python `float` values in the pipeline (confidence, threshold) are embedded
  as `ℚ`; the format helpers below reproduce CPython formatting on values that
  are terminating decimals (every literal appearing in the code and claims).
* The external template directory read by `TemplateEngine._find_template_dir`
  is abstracted as a `TemplateStore` parameter mapping a template name to the
  list of `(file stem, body)` pairs it contains, `none` when resolution fails.
  The repository ships no `references/templates` directory, so the shipped
  behaviour is `emptyStore`.
* Console printing is ignored; VCS calls are recorded in an explicit trace.
-/

namespace DataObs

/-! ### String helpers (List-of-Char implementations of the Python primitives) -/

/-- Regex `\w` of `re.compile(r'\$\{(\w+)\}')`, on the ASCII range used here. -/
def isWordChar (c : Char) : Bool := c.isAlphanum || c == '_'

/-- Python `sep.join(xs)`. -/
def joinSep (sep : String) : List String → String
  | [] => ""
  | [x] => x
  | x :: xs => x ++ sep ++ joinSep sep xs

/-- One insertion into a Python dict represented as an insertion-ordered
association list: an existing key keeps its position and gets the new value. -/
def dictInsert (m : List (String × String)) (k v : String) : List (String × String) :=
  match m with
  | [] => [(k, v)]
  | (k', v') :: rest => if k' == k then (k', v) :: rest else (k', v') :: dictInsert rest k v

/-- Python dict built from a list of key/value pairs (comprehension semantics:
later pairs overwrite earlier values, first-insertion order is kept). -/
def dictOfPairs (l : List (String × String)) : List (String × String) :=
  l.foldl (fun m p => dictInsert m p.1 p.2) []

/-- Lookup in a dict represented as above. -/
def lookupDict (m : List (String × String)) (k : String) : Option String :=
  (m.find? (fun p => p.1 == k)).map (·.2)

/-- Value attached to the last pair of `l` carrying key `k`. -/
def lastAssoc (l : List (String × String)) (k : String) : Option String :=
  l.foldl (fun acc p => if p.1 == k then some p.2 else acc) none

/-- Worker for Python `str.replace` (non-overlapping left-to-right). The first
list argument is recursion fuel: every step consumes at least one character,
so fuel equal to the list length makes the fuel-exhaustion branch unreachable;
structural recursion keeps concrete instances kernel-reducible. -/
def replaceList (old new : List Char) : ℕ → List Char → List Char
  | 0, l => l
  | _ + 1, [] => []
  | fuel + 1, c :: cs =>
    if old.isPrefixOf (c :: cs) && !old.isEmpty then
      new ++ replaceList old new fuel (cs.drop (old.length - 1))
    else
      c :: replaceList old new fuel cs

/-- Python `s.replace(old, new)` (for non-empty `old`, the only use here). -/
def pyReplace (s old new : String) : String :=
  ⟨replaceList old.data new.data s.data.length s.data⟩

/-- Worker for Python `str.split(sep)` with a one-character separator. -/
def splitChar (sep : Char) : List Char → List (List Char)
  | [] => [[]]
  | c :: cs =>
    match splitChar sep cs with
    | [] => [[]]
    | h :: t => if c == sep then [] :: h :: t else (c :: h) :: t

/-- Python `s.split(sep)` for a one-character separator. -/
def pySplit (s : String) (sep : Char) : List String := (splitChar sep s.data).map (⟨·⟩)

/-- Python `str.capitalize`: first character upper-cased, the rest lower-cased. -/
def capitalizeWord : List Char → List Char
  | [] => []
  | c :: cs => c.toUpper :: cs.map Char.toLower

/-- Worker for Python `str.title`: a letter directly after a letter is
lower-cased, any other letter is upper-cased. -/
def titleAux : Bool → List Char → List Char
  | _, [] => []
  | prevAlpha, c :: cs =>
    (if c.isAlpha then (if prevAlpha then c.toLower else c.toUpper) else c) :: titleAux c.isAlpha cs

/-- Python `s.title()`. -/
def pyTitle (s : String) : String := ⟨titleAux false s.data⟩

/-- Python `s.lower()` (ASCII). -/
def pyLower (s : String) : String := ⟨s.data.map Char.toLower⟩

/-- Worker for substring containment. -/
def isInfixList (sub : List Char) : List Char → Bool
  | [] => sub.isEmpty
  | c :: cs => sub.isPrefixOf (c :: cs) || isInfixList sub cs

/-- Python `sub in s` (substring containment). -/
def strContains (s sub : String) : Bool := isInfixList sub.data s.data

/-- Python `s.endswith(suf)`. -/
def strEndsWith (s suf : String) : Bool := suf.data.isSuffixOf s.data

/-! ### Numeric formatting (CPython semantics on terminating decimals) -/

/-- Round `n/d` (for `d > 0`) to the nearest integer, ties to even (CPython
float formatting); stated on numerator and denominator so that concrete
instances reduce in the kernel. -/
def roundHalfEvenInt (n d : ℤ) : ℤ :=
  let f := n.fdiv d
  let r2 := 2 * (n - f * d)
  if r2 < d then f else if d < r2 then f + 1 else if f % 2 = 0 then f else f + 1

/-- Two-digit zero padding. -/
def natPad2 (n : ℕ) : String := if n < 10 then "0" ++ toString n else toString n

/-- Fixed two-decimal rendering of the non-negative value `n / (100 * d)`. -/
def fixed2Digits (n : ℤ) (d : ℕ) : String :=
  let m := (roundHalfEvenInt n d).toNat
  toString (m / 100) ++ "." ++ natPad2 (m % 100)

/-- Python `f"{q:.2f}"`. -/
def pyFixed2 (q : ℚ) : String :=
  if q.num < 0 then "-" ++ fixed2Digits (-q.num * 100) q.den
  else fixed2Digits (q.num * 100) q.den

/-- Python `f"{q:.0%}"`. -/
def pyPct0 (q : ℚ) : String := toString (roundHalfEvenInt (q.num * 100) q.den) ++ "%"

/-- Fractional decimal digits of `rem/d` by long division (fuel-bounded; every
value reached in this development terminates well within the fuel). -/
def fracDigits (d : ℕ) : ℕ → ℕ → List Char
  | 0, _ => []
  | _ + 1, 0 => []
  | fuel + 1, rem => Nat.digitChar (rem * 10 / d) :: fracDigits d fuel (rem * 10 % d)

/-- Python `str(q)` for a float whose value is a terminating decimal (such as
the configured threshold `0.7`); always shows at least one fractional digit. -/
def ratDecRepr (q : ℚ) : String :=
  let sign := if q.num < 0 then "-" else ""
  let n := q.num.natAbs
  let d := q.den
  let ds := fracDigits d 60 (n % d)
  sign ++ toString (n / d) ++ "." ++ (if ds.isEmpty then "0" else String.mk ds)

/-- Python `str` of a list of strings, e.g. `['repo', 'gaps']`. -/
def pyStrList (xs : List String) : String :=
  "[" ++ joinSep ", " (xs.map fun s => "\x27" ++ s ++ "\x27") ++ "]"

/-! ### Interpolation engine (`TemplateEngine._interpolate`) -/

/-- A value in the template variable mapping: `TemplateContext.to_dict` holds
strings, one list of strings (`archetypes`) and one float (`confidence`). -/
inductive Value where
  | s (v : String)
  | l (v : List String)
  | f (v : ℚ)
  deriving DecidableEq

/-- Python `vmap.get(name)` on the flat mapping. -/
def lookupVar (vmap : List (String × Value)) (k : String) : Option Value :=
  (vmap.find? (fun p => p.1 == k)).map (·.2)

/-- The `replace_var` closure of `_interpolate`: a resolved list is
comma-joined, a miss yields the literal placeholder back. -/
def replace_var (vmap : List (String × Value)) (nm : List Char) : List Char :=
  match lookupVar vmap ⟨nm⟩ with
  | none => '$' :: '\x7b' :: (nm ++ ['\x7d'])
  | some (.s v) => v.data
  | some (.l v) => (joinSep ", " v).data
  | some (.f v) => (ratDecRepr v).data

/-- Left-to-right scan of `re.sub(r'\$\{(\w+)\}', replace_var, template)`:
at `"${"` followed by a non-empty word-character run and `"}"`, substitute;
otherwise copy one character and continue. The numeric argument is recursion
fuel: every step consumes at least one character and exactly one unit of fuel,
so fuel equal to the list length makes the exhaustion branch unreachable;
structural recursion keeps concrete instances kernel-reducible. -/
def interpolateChars (vars : List (String × Value)) : ℕ → List Char → List Char
  | 0, l => l
  | _ + 1, [] => []
  | fuel + 1, '$' :: '\x7b' :: rest =>
    match rest.dropWhile isWordChar with
    | '\x7d' :: tail =>
      if (rest.takeWhile isWordChar).isEmpty then
        '$' :: interpolateChars vars fuel ('\x7b' :: rest)
      else
        replace_var vars (rest.takeWhile isWordChar) ++ interpolateChars vars fuel tail
    | _ => '$' :: interpolateChars vars fuel ('\x7b' :: rest)
  | fuel + 1, c :: cs => c :: interpolateChars vars fuel cs

/-- `TemplateEngine._interpolate(template, variable mapping)`. -/
def interpolate (template : String) (vmap : List (String × Value)) : String :=
  ⟨interpolateChars vmap template.data.length template.data⟩

/-- Whether the scan of `interpolateChars` finds any `${word}` match (same
fuel discipline as `interpolateChars`). -/
def hasPlaceholderChars : ℕ → List Char → Bool
  | 0, _ => false
  | _ + 1, [] => false
  | fuel + 1, '$' :: '\x7b' :: rest =>
    match rest.dropWhile isWordChar with
    | '\x7d' :: _ =>
      if (rest.takeWhile isWordChar).isEmpty then
        hasPlaceholderChars fuel ('\x7b' :: rest)
      else
        true
    | _ => hasPlaceholderChars fuel ('\x7b' :: rest)
  | fuel + 1, _ :: cs => hasPlaceholderChars fuel cs

/-- `hasPlaceholderChars` on a `String`. -/
def hasPlaceholder (s : String) : Bool := hasPlaceholderChars s.data.length s.data

/-! ### Data model -/

/-- One Gap entry of a Diff Plan; each field models the presence of the
corresponding dict key. -/
structure Gap where
  type? : Option String := none
  priority? : Option String := none
  description? : Option String := none
  template? : Option String := none
  deriving DecidableEq

/-- One entry of the optional `patch_plan` list. -/
structure PatchInstruction where
  file? : Option String := none
  action? : Option String := none
  content? : Option String := none
  deriving DecidableEq

/-- The `tech_stack` mapping (only its `language` key is read). -/
structure TechStack where
  language? : Option String := none
  deriving DecidableEq

/-- A Diff Plan document; each field models the presence of the corresponding
top-level key. -/
structure DiffPlan where
  repo? : Option String := none
  archetypes? : Option (List String) := none
  confidence? : Option ℚ := none
  tech_stack? : Option TechStack := none
  gaps? : Option (List Gap) := none
  patch_plan? : Option (List PatchInstruction) := none
  scan_timestamp? : Option String := none
  diff_plan_id? : Option String := none
  deriving DecidableEq

/-- `TemplateContext` dataclass (field `namespace` is `namespace_` here since
`namespace` is a Lean keyword). As built by `_build_template_context` every
field is filled explicitly, so `__post_init__` leaves it unchanged. -/
structure TemplateContext where
  service_name : String
  service_urn : String
  namespace_ : String
  input_topic : String
  output_topic : String
  owner_team : String
  consumer_group : String
  schema_id : String
  otel_version : String
  timestamp : String
  diff_plan_id : String
  confidence : ℚ
  archetypes : List String
  language : String
  deriving DecidableEq

/-- `TemplateContext.to_dict`: the `asdict` fields followed by the upper-case
aliases and the derived names. -/
def TemplateContext.to_dict (c : TemplateContext) : List (String × Value) :=
  [("service_name", .s c.service_name), ("service_urn", .s c.service_urn),
   ("namespace", .s c.namespace_), ("input_topic", .s c.input_topic),
   ("output_topic", .s c.output_topic), ("owner_team", .s c.owner_team),
   ("consumer_group", .s c.consumer_group), ("schema_id", .s c.schema_id),
   ("otel_version", .s c.otel_version), ("timestamp", .s c.timestamp),
   ("diff_plan_id", .s c.diff_plan_id), ("confidence", .f c.confidence),
   ("archetypes", .l c.archetypes), ("language", .s c.language),
   ("SERVICE_NAME", .s c.service_name), ("SERVICE_URN", .s c.service_urn),
   ("NAMESPACE", .s c.namespace_), ("INPUT_TOPIC", .s c.input_topic),
   ("OUTPUT_TOPIC", .s c.output_topic), ("OWNER_TEAM", .s c.owner_team),
   ("CONSUMER_GROUP", .s c.consumer_group), ("SCHEMA_ID", .s c.schema_id),
   ("OTEL_VERSION", .s c.otel_version), ("TIMESTAMP", .s c.timestamp),
   ("DIFF_PLAN_ID", .s c.diff_plan_id), ("CONFIDENCE", .s (pyPct0 c.confidence)),
   ("ARCHETYPES", .s (joinSep ", " c.archetypes)), ("LANGUAGE", .s c.language),
   ("PACKAGE_NAME", .s (pyReplace c.service_name "-" ".")),
   ("CLASS_NAME", .s (joinSep "" ((pySplit c.service_name '-').map fun w => ⟨capitalizeWord w.data⟩))),
   ("MODULE_NAME", .s (pyReplace c.service_name "-" "_"))]

/-- Python exception surfaced by the pipeline. -/
inductive PyErr where
  | valueError (msg : String)
  | keyError (key : String)
  deriving DecidableEq

/-- Direct dict access `d[k]`: `KeyError` when the key is absent. -/
def getKey {α : Type} (v : Option α) (k : String) : Except PyErr α :=
  match v with
  | some a => .ok a
  | none => .error (.keyError k)

/-- Python-style exception-propagating loop over a list (the semantics of a
`for`-append loop or list comprehension that can raise). -/
def mapMEx {α β : Type} (f : α → Except PyErr β) : List α → Except PyErr (List β)
  | [] => .ok []
  | a :: as =>
    match f a with
    | .error e => .error e
    | .ok b =>
      match mapMEx f as with
      | .error e => .error e
      | .ok bs => .ok (b :: bs)

/-! ### Template store and built-in templates -/

/-- Abstraction of the template directory scanned by `_find_template_dir` and
`glob("*.tmpl")`: a resolved name yields the `(file stem, body)` pairs of the
matched directory, an unresolved name yields `none` (in the code a `None`
return or a `FileNotFoundError`, both surfacing as the caught exception). -/
def TemplateStore : Type := String → Option (List (String × String))

/-- The store shipped with this repository: it contains no
`references/templates` directory, so every resolution fails. -/
def emptyStore : TemplateStore := fun _ => none

/-- Verbatim body of `_builtin_runbook_template` in template_engine.py (braces, backticks, hashes and quotes written via character escapes). -/
def builtin_runbook_template : String :=
  "\x23 $\x7bSERVICE_NAME\x7d Runbook\n\n\x23\x23 Service Overview\n\n| Attribute | Value |\n|-----------|-------|\n| **Service URN** | \x60$\x7bSERVICE_URN\x7d\x60 |\n| **Owner Team** | $\x7bOWNER_TEAM\x7d |\n| **Namespace** | $\x7bNAMESPACE\x7d |\n| **Archetypes** | $\x7bARCHETYPES\x7d |\n\n\x23\x23 Observability\n\n\x23\x23\x23 Metrics\n\n| Metric | Description | Alert Threshold |\n|--------|-------------|-----------------|\n| \x60otel_span_count\x60 | Count of OTel spans emitted | < 1/min = warning |\n| \x60kafka_consumer_lag\x60 | Kafka consumer group lag | > 1000 = critical |\n| \x60error_rate\x60 | Error rate (5xx responses) | > 5% = critical |\n\n\x23\x23\x23 Traces\n\nThis service emits OpenTelemetry traces for:\n- Kafka consumer processing\n- Kafka producer sends\n- HTTP/gRPC requests\n\n**Trace Attributes:**\n- \x60service.name\x60: $\x7bSERVICE_NAME\x7d\n- \x60service.namespace\x60: $\x7bNAMESPACE\x7d\n- \x60x-obs-dataproduct-urn\x60: $\x7bSERVICE_URN\x7d\n\n\x23\x23\x23 Dashboards\n\n- [Service Dashboard](https://grafana.internal/d/$\x7bSERVICE_NAME\x7d)\n- [Kafka Consumer Lag](https://grafana.internal/d/kafka-lag?var-consumer_group=$\x7bCONSUMER_GROUP\x7d)\n\n\x23\x23 Common Issues\n\n\x23\x23\x23 High Consumer Lag\n\n**Symptoms:** Kafka consumer lag exceeds threshold\n\n**Investigation:**\n1. Check consumer pod health: \x60kubectl get pods -l app=$\x7bSERVICE_NAME\x7d\x60\n2. Check consumer logs: \x60kubectl logs -l app=$\x7bSERVICE_NAME\x7d --tail=100\x60\n3. Verify topic partitions: Check Kafka UI for partition distribution\n\n**Resolution:**\n- Scale up consumers if processing is CPU-bound\n- Check for slow downstream dependencies\n- Verify no poison pill messages\n\n\x23\x23\x23 Missing Traces\n\n**Symptoms:** Spans not appearing in tracing backend\n\n**Investigation:**\n1. Check OTel Collector health\n2. Verify OTEL_EXPORTER_OTLP_ENDPOINT environment variable\n3. Check for sampling configuration\n\n**Resolution:**\n- Restart OTel Collector sidecar\n- Verify network connectivity to collector\n\n\x23\x23 Contacts\n\n- **On-call Team:** $\x7bOWNER_TEAM\x7d\n- **Slack Channel:** \x23$\x7bSERVICE_NAME\x7d-alerts\n- **Escalation:** Platform Team\n\n---\n*Generated by Instrumentation Autopilot*\n*Last Updated: $\x7bTIMESTAMP\x7d*\n"

/-- Verbatim body of `_builtin_lineage_template` in template_engine.py (braces, backticks, hashes and quotes written via character escapes). -/
def builtin_lineage_template : String :=
  "\x23 Lineage Specification for $\x7bSERVICE_NAME\x7d\n\x23 Generated by Instrumentation Autopilot\n\napiVersion: lineage.autopilot.io/v1\nkind: LineageSpec\nmetadata:\n  name: $\x7bSERVICE_NAME\x7d\n  namespace: $\x7bNAMESPACE\x7d\n  labels:\n    autopilot.io/managed: \"true\"\n    autopilot.io/diff-plan-id: \"$\x7bDIFF_PLAN_ID\x7d\"\n\nspec:\n  service:\n    urn: \"$\x7bSERVICE_URN\x7d\"\n    name: \"$\x7bSERVICE_NAME\x7d\"\n    owner: \"$\x7bOWNER_TEAM\x7d\"\n\n  inputs:\n    - name: input-stream\n      type: kafka-topic\n      urn: \"urn:kafka:$\x7bNAMESPACE\x7d:$\x7bINPUT_TOPIC\x7d\"\n      schema:\n        registry: schema-registry\n        subject: \"$\x7bINPUT_TOPIC\x7d-value\"\n\n  outputs:\n    - name: output-stream\n      type: kafka-topic\n      urn: \"urn:kafka:$\x7bNAMESPACE\x7d:$\x7bOUTPUT_TOPIC\x7d\"\n      schema:\n        registry: schema-registry\n        subject: \"$\x7bOUTPUT_TOPIC\x7d-value\"\n\n  transformations:\n    - name: enrich\n      description: \"Enriches input records with additional data\"\n      inputs: [input-stream]\n      outputs: [output-stream]\n      sla:\n        latencyP99: 500ms\n        throughput: 1000/s\n"

/-- Verbatim body of `_builtin_contract_template` in template_engine.py (braces, backticks, hashes and quotes written via character escapes). -/
def builtin_contract_template : String :=
  "\x23 Data Contract for $\x7bSERVICE_NAME\x7d\n\x23 Generated by Instrumentation Autopilot\n\napiVersion: contracts.autopilot.io/v1\nkind: DataContract\nmetadata:\n  name: $\x7bSERVICE_NAME\x7d-contract\n  namespace: $\x7bNAMESPACE\x7d\n  labels:\n    autopilot.io/managed: \"true\"\n    autopilot.io/diff-plan-id: \"$\x7bDIFF_PLAN_ID\x7d\"\n\nspec:\n  owner: $\x7bOWNER_TEAM\x7d\n  description: \"Data contract for $\x7bSERVICE_NAME\x7d output\"\n\n  dataset:\n    urn: \"urn:kafka:$\x7bNAMESPACE\x7d:$\x7bOUTPUT_TOPIC\x7d\"\n    type: kafka-topic\n\n  schema:\n    format: avro\n    registry: schema-registry\n    subject: \"$\x7bOUTPUT_TOPIC\x7d-value\"\n\n  slos:\n    freshness:\n      maxStalenessMinutes: 5\n      monitoringWindow: 1h\n\n    volume:\n      expectedDailyRecords: 100000\n      warningThresholdPercent: 20\n      criticalThresholdPercent: 50\n\n    quality:\n      nullRateThreshold: 0.01\n      duplicateRateThreshold: 0.001\n\n  notifications:\n    - channel: slack\n      target: \"\x23$\x7bSERVICE_NAME\x7d-alerts\"\n      severity: critical\n\n    - channel: pagerduty\n      target: $\x7bOWNER_TEAM\x7d-oncall\n      severity: critical\n"

/-- Verbatim body of `_builtin_java_test_template` in template_engine.py (braces, backticks, hashes and quotes written via character escapes). -/
def builtin_java_test_template : String :=
  "package com.company.$\x7bNAMESPACE\x7d.$\x7bMODULE_NAME\x7d.otel;\n\nimport org.junit.jupiter.api.BeforeEach;\nimport org.junit.jupiter.api.Test;\nimport static org.junit.jupiter.api.Assertions.*;\n\n/**\n * Telemetry validation tests for $\x7bSERVICE_NAME\x7d.\n * Generated by: Instrumentation Autopilot\n * Diff Plan ID: $\x7bDIFF_PLAN_ID\x7d\n */\nclass $\x7bCLASS_NAME\x7dOtelInterceptorTest \x7b\n\n    private static final String TEST_TOPIC = \"$\x7bINPUT_TOPIC\x7d\";\n    private static final String TEST_SERVICE = \"$\x7bSERVICE_NAME\x7d\";\n\n    @BeforeEach\n    void setUp() \x7b\n        // Initialize test tracer\n    \x7d\n\n    @Test\n    void shouldCreateConsumerSpanForMessage() \x7b\n        // Test that consumer span is created with correct attributes\n        // messaging.system = \"kafka\"\n        // messaging.destination = TEST_TOPIC\n        // service.name = TEST_SERVICE\n        assertTrue(true, \"Span creation test\");\n    \x7d\n\n    @Test\n    void shouldExtractObservabilityHeaders() \x7b\n        // Test that x-obs-* headers are extracted as span attributes\n        assertTrue(true, \"Header extraction test\");\n    \x7d\n\n    @Test\n    void shouldPropagateTraceContext() \x7b\n        // Test that trace context is propagated to downstream calls\n        assertTrue(true, \"Context propagation test\");\n    \x7d\n\x7d\n"

/-- Verbatim body of `_builtin_python_test_template` in template_engine.py (braces, backticks, hashes and quotes written via character escapes). -/
def builtin_python_test_template : String :=
  "\"\"\"\nTelemetry validation tests for $\x7bSERVICE_NAME\x7d.\nGenerated by: Instrumentation Autopilot\nDiff Plan ID: $\x7bDIFF_PLAN_ID\x7d\n\"\"\"\n\nimport pytest\nfrom unittest.mock import Mock\n\nTEST_TOPIC = \"$\x7bINPUT_TOPIC\x7d\"\nTEST_SERVICE = \"$\x7bSERVICE_NAME\x7d\"\nTEST_CONSUMER_GROUP = \"$\x7bCONSUMER_GROUP\x7d\"\n\n\nclass TestOtelKafkaWrapper:\n    \"\"\"Test suite for OTel Kafka wrapper instrumentation.\"\"\"\n\n    def test_consumer_span_created(self):\n        \"\"\"Verify consumer span is created for incoming message.\"\"\"\n        \x23 Test implementation\n        assert True\n\n    def test_trace_context_extraction(self):\n        \"\"\"Verify trace context is extracted from Kafka headers.\"\"\"\n        \x23 Test implementation\n        assert True\n\n    def test_correlation_headers_extraction(self):\n        \"\"\"Verify x-obs-* headers are extracted as span attributes.\"\"\"\n        \x23 Test implementation\n        assert True\n\n    def test_producer_span_created(self):\n        \"\"\"Verify producer span is created when sending message.\"\"\"\n        \x23 Test implementation\n        assert True\n\n\nif __name__ == \"__main__\":\n    pytest.main([__file__, \"-v\"])\n"

/-- Verbatim body of `_builtin_go_test_template` in template_engine.py (braces, backticks, hashes and quotes written via character escapes). -/
def builtin_go_test_template : String :=
  "package otel\n\nimport (\n\t\"context\"\n\t\"testing\"\n\n\t\"github.com/stretchr/testify/assert\"\n)\n\nconst (\n\ttestTopic         = \"$\x7bINPUT_TOPIC\x7d\"\n\ttestService       = \"$\x7bSERVICE_NAME\x7d\"\n\ttestConsumerGroup = \"$\x7bCONSUMER_GROUP\x7d\"\n)\n\nfunc TestStartConsumerSpan(t *testing.T) \x7b\n\t// Test that consumer span is created with correct attributes\n\tctx := context.Background()\n\tassert.NotNil(t, ctx)\n\x7d\n\nfunc TestStartProducerSpan(t *testing.T) \x7b\n\t// Test that producer span is created with correct attributes\n\tctx := context.Background()\n\tassert.NotNil(t, ctx)\n\x7d\n\nfunc TestExtractContext(t *testing.T) \x7b\n\t// Test that trace context is extracted from headers\n\tctx := context.Background()\n\tassert.NotNil(t, ctx)\n\x7d\n\nfunc TestInjectContext(t *testing.T) \x7b\n\t// Test that trace context is injected into headers\n\tctx := context.Background()\n\tassert.NotNil(t, ctx)\n\x7d\n"

/-- `TemplateEngine._get_builtin_template`. -/
def get_builtin_template (k : String) : String :=
  if k == "runbook" then builtin_runbook_template
  else if k == "lineage-spec" then builtin_lineage_template
  else if k == "contract-stub" then builtin_contract_template
  else if k == "telemetry-test-java" then builtin_java_test_template
  else if k == "telemetry-test-python" then builtin_python_test_template
  else if k == "telemetry-test-go" then builtin_go_test_template
  else ""

/-- `TemplateEngine.render_runbook`. -/
def render_runbook (c : TemplateContext) : String :=
  interpolate builtin_runbook_template c.to_dict

/-- `TemplateEngine.render_lineage_spec`. -/
def render_lineage_spec (c : TemplateContext) : String :=
  interpolate builtin_lineage_template c.to_dict

/-- `TemplateEngine.render_contract_stub`. -/
def render_contract_stub (c : TemplateContext) : String :=
  interpolate builtin_contract_template c.to_dict

/-- `TemplateEngine.render_telemetry_test`: per-language built-in with a Java
fallback for unrecognized languages. -/
def render_telemetry_test (c : TemplateContext) : String :=
  let t := get_builtin_template ("telemetry-test-" ++ c.language)
  let t := if t == "" then get_builtin_template "telemetry-test-java" else t
  interpolate t c.to_dict

/-- `TemplateEngine._get_output_path`. -/
def get_output_path (template_name output_name : String) (c : TemplateContext) : String :=
  let source_dir :=
    if c.language == "java" then "src/main/java/com/company/" ++ pyReplace c.service_name "-" "/"
    else if c.language == "python" then "src/" ++ pyReplace c.service_name "-" "_"
    else if c.language == "go" then "internal/observability"
    else "src"
  if strEndsWith output_name ".java" || strEndsWith output_name ".py" || strEndsWith output_name ".go" then
    source_dir ++ "/" ++ output_name
  else if strEndsWith output_name ".yaml" || strEndsWith output_name ".yml" then
    if strContains template_name "lineage" then "lineage/" ++ output_name
    else if strContains template_name "contract" then "contracts/" ++ output_name
    else "src/main/resources/" ++ output_name
  else if strEndsWith output_name ".xml" then output_name
  else if strEndsWith output_name ".mod" then output_name
  else output_name

/-- `TemplateEngine.render_template`: resolve the template directory, render
each `.tmpl` stem and body, key the results by their computed output path
(a Python dict, so a later file overwrites an earlier one at the same path). -/
def render_template (store : TemplateStore) (template_name : String) (c : TemplateContext) :
    Except PyErr (List (String × String)) :=
  match store template_name with
  | none => .error (.valueError ("Template not found: " ++ template_name))
  | some files =>
    let vmap := c.to_dict
    .ok (dictOfPairs (files.map fun f =>
      (get_output_path template_name (interpolate f.1 vmap) c, interpolate f.2 vmap)))

/-! ### PR Author Agent -/

/-- `PRAuthorConfig` (defaults from the dataclass; `templates_path` is
superseded by the `TemplateStore` parameter, and the source field
`branch_prefix` is named `branch_prefix_str` here). -/
structure PRAuthorConfig where
  default_branch : String := "main"
  branch_prefix_str : String := "autopilot/observability"
  pr_labels : List String := ["autopilot", "observability"]
  confidence_threshold : ℚ := mkRat 7 10
  auto_create_pr : Bool := true
  require_human_review : Bool := true
  deriving DecidableEq

/-- Responses of the external VCS client (`create_pull_request` returns a dict
whose `number` and `url` the agent reads back). -/
structure GatewayEnv where
  pr_number : ℕ
  pr_url : String
  deriving DecidableEq

/-- One call performed against the VCS client, recorded in order. -/
inductive GatewayCall where
  | createBranch (repo_url branch_name base_branch : String)
  | commitFiles (repo_url branch_name : String) (files : List (String × String)) (message : String)
  | createPullRequest (repo_url title body head_branch base_branch : String) (labels : List String)
  deriving DecidableEq

/-- The result dicts returned by `process_diff_plan` (statuses `skipped`,
`dry_run`, `success`, `artifacts_generated`). -/
inductive ProcResult where
  | skipped (reason : String) (diff_plan_id : Option String)
  | dryRun (diff_plan_id : Option String) (artifacts : List (String × String)) (pr_description : String)
  | published (diff_plan_id : Option String) (pr_number : ℕ) (pr_url : String) (branch : String)
      (files_changed : ℕ) (archetypes : List String) (gaps_addressed : List String)
  | artifactsGenerated (diff_plan_id : Option String) (artifacts_count : ℕ)
  deriving DecidableEq

/-- Whether a result is the `success` (Published) outcome. -/
def ProcResult.isPublished : ProcResult → Bool
  | .published .. => true
  | _ => false

/-- Whether a result is the `dry_run` outcome. -/
def ProcResult.isDryRun : ProcResult → Bool
  | .dryRun .. => true
  | _ => false

/-- `GeneratedArtifact` dataclass. -/
structure GeneratedArtifact where
  file_path : String
  content : String
  action : String
  template : Option String := none
  deriving DecidableEq

/-- The required top-level Diff Plan fields. -/
def required_fields : List String := ["repo", "archetypes", "confidence", "tech_stack", "gaps"]

/-- Membership test `f in diff_plan` for the keys the agent consults. -/
def DiffPlan.hasKey (p : DiffPlan) : String → Bool
  | "repo" => p.repo?.isSome
  | "archetypes" => p.archetypes?.isSome
  | "confidence" => p.confidence?.isSome
  | "tech_stack" => p.tech_stack?.isSome
  | "gaps" => p.gaps?.isSome
  | "patch_plan" => p.patch_plan?.isSome
  | "scan_timestamp" => p.scan_timestamp?.isSome
  | "diff_plan_id" => p.diff_plan_id?.isSome
  | _ => false

/-- `PRAuthorAgent._validate_diff_plan`. -/
def validate_diff_plan (p : DiffPlan) : Except PyErr Unit :=
  let missing := required_fields.filter (fun f => !p.hasKey f)
  if missing.isEmpty then
    match p.archetypes? with
    | none => .error (.keyError "archetypes")
    | some a =>
      if a.isEmpty then .error (.valueError "Diff Plan has no archetypes detected")
      else .ok ()
  else
    .error (.valueError ("Invalid Diff Plan: missing fields " ++ pyStrList missing))

/-- `PRAuthorAgent._get_owner_team`: constant in the source. -/
def get_owner_team (_repo_url : String) : String := "platform-team"

/-- `PRAuthorAgent._get_otel_version`. -/
def get_otel_version (language : String) : String :=
  if language == "java" then "1.32.0"
  else if language == "python" then "1.22.0"
  else if language == "go" then "1.24.0"
  else "1.32.0"

/-- `PRAuthorAgent._build_template_context` (`now_iso` stands for the
`datetime.now(timezone.utc).isoformat()` read). -/
def build_template_context (p : DiffPlan) (repo_url : String) (now_iso : String) :
    Except PyErr TemplateContext :=
  match getKey p.repo? "repo" with
  | .error e => .error e
  | .ok repo_name =>
    let tech_stack := p.tech_stack?.getD {}
    let kafka := (p.gaps?.getD []).any fun g => strContains (pyLower (g.template?.getD "")) "kafka"
    let input_topic := if kafka then repo_name ++ "_input" else ""
    let output_topic := if kafka then repo_name ++ "_output" else ""
    match getKey p.confidence? "confidence" with
    | .error e => .error e
    | .ok confidence =>
      match getKey p.archetypes? "archetypes" with
      | .error e => .error e
      | .ok archetypes =>
        .ok { service_name := repo_name
              service_urn := "urn:svc:prod:" ++ repo_name
              namespace_ := if strContains repo_name "-" then (pySplit repo_name '-').headD "" else "default"
              input_topic := input_topic
              output_topic := output_topic
              owner_team := get_owner_team repo_url
              consumer_group := repo_name ++ "-cg"
              schema_id := repo_name ++ ".v1"
              otel_version := get_otel_version (tech_stack.language?.getD "java")
              timestamp := now_iso
              diff_plan_id := p.diff_plan_id?.getD ("dp-" ++ repo_name)
              confidence := confidence
              archetypes := archetypes
              language := tech_stack.language?.getD "java" }

/-- `PRAuthorAgent._get_test_path`. -/
def get_test_path (c : TemplateContext) : String :=
  if c.language == "java" then
    "src/test/java/com/company/" ++ pyReplace c.service_name "-" "/" ++ "/otel/" ++
      pyTitle (pyReplace c.service_name "-" "") ++ "OtelInterceptorTest.java"
  else if c.language == "python" then
    "tests/test_otel_" ++ pyReplace c.service_name "-" "_" ++ ".py"
  else if c.language == "go" then
    "internal/observability/otel_test.go"
  else
    "tests/test_telemetry." ++ c.language

/-- Artifacts contributed by one gap: nothing when its `template` field is
empty or absent, and nothing when resolution or rendering raises (the
`try`/`except` in `_generate_artifacts` logs and continues). -/
def gapArtifacts (store : TemplateStore) (c : TemplateContext) (g : Gap) : List GeneratedArtifact :=
  let template_name := g.template?.getD ""
  if template_name == "" then []
  else
    match render_template store template_name c with
    | .error _ => []
    | .ok files => files.map fun f =>
        { file_path := f.1, content := f.2, action := "create", template := some template_name }

/-- One `patch_plan` entry turned into an artifact (`patch["file"]` and
`patch["action"]` are direct accesses, `content` is `get` with default). -/
def patchArtifact (patch : PatchInstruction) : Except PyErr GeneratedArtifact :=
  match patch.file? with
  | none => .error (.keyError "file")
  | some file =>
    match patch.action? with
    | none => .error (.keyError "action")
    | some action => .ok { file_path := file, content := patch.content?.getD "", action := action }

/-- `PRAuthorAgent._generate_artifacts`: per-gap template artifacts, patch-plan
artifacts, the mandatory runbook, then the conditional lineage spec, contract
stub and telemetry test (whose gap-type list comprehensions re-read
`g["type"]` and can raise `KeyError`). -/
def generate_artifacts (store : TemplateStore) (p : DiffPlan) (c : TemplateContext) :
    Except PyErr (List GeneratedArtifact) :=
  let gaps := p.gaps?.getD []
  let gapArts := gaps.flatMap (gapArtifacts store c)
  match mapMEx patchArtifact (p.patch_plan?.getD []) with
  | .error e => .error e
  | .ok patchArts =>
    let arts := gapArts ++ patchArts
    let arts :=
      if arts.any (fun a => a.file_path == "RUNBOOK.md") then arts
      else arts ++ [{ file_path := "RUNBOOK.md", content := render_runbook c,
                      action := "create", template := some "runbook" }]
    match mapMEx (fun g => getKey g.type? "type") gaps with
    | .error e => .error e
    | .ok types =>
      let arts :=
        if types.contains "missing_lineage_spec" then
          arts ++ [{ file_path := "lineage/" ++ c.service_name ++ ".yaml",
                     content := render_lineage_spec c, action := "create",
                     template := some "lineage-spec" }]
        else arts
      let arts :=
        if types.contains "missing_contract" then
          arts ++ [{ file_path := "contracts/" ++ c.service_name ++ ".yaml",
                     content := render_contract_stub c, action := "create",
                     template := some "contract-stub" }]
        else arts
      let arts :=
        if types.any (fun t => t == "missing_otel" || t == "missing_correlation") then
          arts ++ [{ file_path := get_test_path c, content := render_telemetry_test c,
                     action := "create", template := some "telemetry-test" }]
        else arts
      .ok arts

/-- One line of the "Gaps Addressed" section; evaluation order of the f-string
reads `priority`, `type`, `description` in that order. -/
def gapLine (g : Gap) : Except PyErr String :=
  match g.priority? with
  | none => .error (.keyError "priority")
  | some pr =>
    match g.type? with
    | none => .error (.keyError "type")
    | some ty =>
      match g.description? with
      | none => .error (.keyError "description")
      | some de => .ok ("- [" ++ pr ++ "] " ++ ty ++ ": " ++ de)

/-- `PRAuthorAgent._generate_pr_description`. -/
def generate_pr_description (p : DiffPlan) (artifacts : List GeneratedArtifact)
    (c : TemplateContext) : Except PyErr String :=
  let changes_list := joinSep "\n" (artifacts.map fun a =>
    "- \x60" ++ a.file_path ++ "\x60 (" ++ a.action ++ ")")
  match mapMEx gapLine (p.gaps?.getD []) with
  | .error e => .error e
  | .ok gapLines =>
    let gaps_list := joinSep "\n" gapLines
    let files_list := joinSep "\n" (artifacts.map fun a =>
      "| \x60" ++ a.file_path ++ "\x60 | " ++ a.action ++ " | " ++
        (match a.template with | none => "patch" | some t => if t == "" then "patch" else t) ++ " |")
    .ok ("\x23\x23 Autopilot: Observability Instrumentation\n\nThis PR was generated by the Instrumentation Autopilot to add observability\ninstrumentation to this repository based on Scout Agent analysis.\n\n\x23\x23\x23 Summary\n- **Archetypes Detected**: " ++
      joinSep ", " c.archetypes ++ "\n- **Confidence Score**: " ++ pyPct0 c.confidence ++
      "\n- **Diff Plan ID**: " ++ c.diff_plan_id ++ "\n\n\x23\x23\x23 Changes\n" ++ changes_list ++
      "\n\n\x23\x23\x23 Gaps Addressed\n" ++ gaps_list ++
      "\n\n\x23\x23\x23 Files Modified\n| File | Action | Template |\n|------|--------|----------|\n" ++
      files_list ++
      "\n\n\x23\x23\x23 Verification Checklist\n- [ ] Code review approved by domain expert\n- [ ] Unit tests passing\n- [ ] Lineage spec reviewed for accuracy\n- [ ] Contract SLOs appropriate for data tier\n- [ ] RUNBOOK.md reviewed for operational accuracy\n\n\x23\x23\x23 Next Steps\nAfter merge, the **Telemetry Validator** will automatically verify signals in staging.\nGate 1 checks will run as part of this PR\x27s CI pipeline.\n\n\x23\x23\x23 Need Help?\n- [Observability Runbook](./RUNBOOK.md)\n- [Instrumentation Autopilot Docs](https://docs.internal/autopilot)\n- Contact: \x23observability-support\n\n---\n*Generated by Instrumentation Autopilot v1.0*\n*Scout Agent Scan: " ++
      p.scan_timestamp?.getD "N/A" ++ "*\n*PR Author: " ++ c.timestamp ++ "*\n")

/-- `PRAuthorAgent._create_pull_request` (`now_epoch` stands for
`int(datetime.now().timestamp())`): branch creation, the path-keyed file
commit, then the pull request, with the calls recorded in order. -/
def create_pull_request (cfg : PRAuthorConfig) (gw : GatewayEnv) (now_epoch : ℤ)
    (p : DiffPlan) (artifacts : List GeneratedArtifact) (pr_description : String)
    (repo_url : String) : Except PyErr ProcResult × List GatewayCall :=
  match getKey p.repo? "repo" with
  | .error e => (.error e, [])
  | .ok repo_name =>
    let branch_name := cfg.branch_prefix_str ++ "-" ++ repo_name ++ "-" ++ toString now_epoch
    let call1 := GatewayCall.createBranch repo_url branch_name cfg.default_branch
    let files_to_commit := dictOfPairs (artifacts.map fun a => (a.file_path, a.content))
    match mapMEx (fun g => getKey g.type? "type") (p.gaps?.getD []) with
    | .error e => (.error e, [call1])
    | .ok types =>
      match getKey p.confidence? "confidence" with
      | .error e => (.error e, [call1])
      | .ok confidence =>
        let commit_message :=
          "feat(observability): Add instrumentation via Autopilot\n\nAddresses gaps detected by Scout Agent:\n" ++
            joinSep "\n" (types.map fun t => "- " ++ t) ++ "\n\nDiff Plan ID: " ++
            p.diff_plan_id?.getD "N/A" ++ "\nConfidence: " ++ pyPct0 confidence ++ "\n"
        let call2 := GatewayCall.commitFiles repo_url branch_name files_to_commit commit_message
        match getKey p.archetypes? "archetypes" with
        | .error e => (.error e, [call1, call2])
        | .ok archetypes =>
          let pr_labels := cfg.pr_labels ++ (archetypes.take 2).map fun a => "archetype:" ++ a
          let pr_title := "feat(observability): Add " ++ joinSep ", " (archetypes.take 2) ++ " instrumentation"
          let call3 := GatewayCall.createPullRequest repo_url pr_title pr_description
            branch_name cfg.default_branch pr_labels
          (.ok (.published p.diff_plan_id? gw.pr_number gw.pr_url branch_name
            artifacts.length archetypes types), [call1, call2, call3])

/-- `PRAuthorAgent.process_diff_plan`: validate, gate on confidence, build
context, generate artifacts, synthesize the description, then return the
dry-run manifest or publish. The second component is the ordered trace of VCS
client calls performed. -/
def process_diff_plan (cfg : PRAuthorConfig) (store : TemplateStore) (gw : GatewayEnv)
    (now_iso : String) (now_epoch : ℤ) (p : DiffPlan) (repo_url : String) (dry_run : Bool) :
    Except PyErr ProcResult × List GatewayCall :=
  match validate_diff_plan p with
  | .error e => (.error e, [])
  | .ok _ =>
    let confidence := p.confidence?.getD 0
    if confidence < cfg.confidence_threshold then
      (.ok (.skipped ("Confidence " ++ pyFixed2 confidence ++ " below threshold " ++
        ratDecRepr cfg.confidence_threshold) p.diff_plan_id?), [])
    else
      match build_template_context p repo_url now_iso with
      | .error e => (.error e, [])
      | .ok c =>
        match generate_artifacts store p c with
        | .error e => (.error e, [])
        | .ok artifacts =>
          match generate_pr_description p artifacts c with
          | .error e => (.error e, [])
          | .ok pr_description =>
            if dry_run then
              (.ok (.dryRun p.diff_plan_id? (artifacts.map fun a => (a.file_path, a.action))
                pr_description), [])
            else if cfg.auto_create_pr then
              create_pull_request cfg gw now_epoch p artifacts pr_description repo_url
            else
              (.ok (.artifactsGenerated p.diff_plan_id? artifacts.length), [])

/-! ### Lemmas about the interpolation scan -/

/-- A scan that finds no `${word}` match rebuilds its input unchanged. -/
theorem interpolateChars_id (v : List (String × Value)) (fuel : ℕ) (l : List Char)
    (hp : hasPlaceholderChars fuel l = false) : interpolateChars v fuel l = l := by
  induction fuel, l using interpolateChars.induct v with
  | case1 l => simp [interpolateChars]
  | case2 fuel => simp [interpolateChars]
  | case3 fuel rest tl hdrop hemp ih =>
    simp only [hasPlaceholderChars, hdrop, hemp, if_true] at hp
    simp only [interpolateChars, hdrop, hemp, if_true]
    rw [ih hp]
  | case4 fuel rest tl hdrop hnemp ih =>
    simp [hasPlaceholderChars, hdrop, hnemp] at hp
  | case5 fuel rest h ih =>
    simp only [hasPlaceholderChars] at hp
    simp only [interpolateChars]
    rw [ih hp]
  | case6 fuel c cs h ih =>
    simp only [hasPlaceholderChars] at hp
    simp only [interpolateChars]
    rw [ih hp]

/-- `takeWhile` of a word-character run followed by `'}'` is the run. -/
theorem takeWhile_word_append (nm : List Char) (hw : ∀ c ∈ nm, isWordChar c = true) :
    (nm ++ ['\x7d']).takeWhile isWordChar = nm := by
  induction nm with
  | nil => decide
  | cons c cs ih =>
    have hc := hw c (by simp)
    simp [List.takeWhile_cons, hc, ih fun x hx => hw x (by simp [hx])]

/-- `dropWhile` of a word-character run followed by `'}'` is `['}']`. -/
theorem dropWhile_word_append (nm : List Char) (hw : ∀ c ∈ nm, isWordChar c = true) :
    (nm ++ ['\x7d']).dropWhile isWordChar = ['\x7d'] := by
  induction nm with
  | nil => decide
  | cons c cs ih =>
    have hc := hw c (by simp)
    simp [List.dropWhile_cons, hc, ih fun x hx => hw x (by simp [hx])]

/-- The scan on the empty list yields the empty list, at any fuel. -/
theorem interpolateChars_nil (v : List (String × Value)) (fuel : ℕ) :
    interpolateChars v fuel [] = [] := by
  cases fuel <;> simp [interpolateChars]

/-- A lone well-formed placeholder is substituted by `replace_var`. -/
theorem interpolateChars_single (v : List (String × Value)) (nm : List Char)
    (hne : nm ≠ []) (hw : ∀ c ∈ nm, isWordChar c = true) (fuel : ℕ) :
    interpolateChars v (fuel + 1) ('$' :: '\x7b' :: (nm ++ ['\x7d'])) = replace_var v nm := by
  have hd := dropWhile_word_append nm hw
  have ht := takeWhile_word_append nm hw
  have hne' : nm.isEmpty = false := by
    cases nm with
    | nil => exact absurd rfl hne
    | cons a l => rfl
  simp [interpolateChars, hd, ht, hne', interpolateChars_nil]

/-- Character data of a `"${" ++ nm ++ "}"` string. -/
theorem wrap_data (nm : String) :
    ("$\x7b" ++ nm ++ "\x7d").data = '$' :: '\x7b' :: (nm.data ++ ['\x7d']) := rfl

/-- Rendering a lone placeholder string reduces to `replace_var`. -/
theorem interpolate_wrap (v : List (String × Value)) (nm : String) (hne : nm.data ≠ [])
    (hw : ∀ c ∈ nm.data, isWordChar c = true) :
    interpolate ("$\x7b" ++ nm ++ "\x7d") v = ⟨replace_var v nm.data⟩ := by
  obtain ⟨d⟩ := nm
  show (⟨interpolateChars v (('$' :: '\x7b' :: (d ++ ['\x7d'])).length)
    ('$' :: '\x7b' :: (d ++ ['\x7d']))⟩ : String) = _
  have hlen : ('$' :: '\x7b' :: (d ++ ['\x7d'])).length = (d.length + 2) + 1 := by
    simp [List.length_append]
  rw [hlen, interpolateChars_single v d hne hw]

/-- Claim C7: a placeholder whose name is absent from the variable mapping is
left in the output unchanged, literally, with no error; in particular
`interpolate("${UNKNOWN_X}", {})` returns `"${UNKNOWN_X}"` exactly, and a
placeholder bound to a list is replaced by the comma-joined element strings. -/
theorem C7_unresolved_placeholder_preserved :
    (∀ (v : List (String × Value)) (nm : String), nm.data ≠ [] →
        (∀ c ∈ nm.data, isWordChar c = true) → lookupVar v nm = none →
        interpolate ("$\x7b" ++ nm ++ "\x7d") v = "$\x7b" ++ nm ++ "\x7d")
    ∧ interpolate "$\x7bUNKNOWN_X\x7d" [] = "$\x7bUNKNOWN_X\x7d"
    ∧ (∀ (v : List (String × Value)) (nm : String) (xs : List String), nm.data ≠ [] →
        (∀ c ∈ nm.data, isWordChar c = true) → lookupVar v nm = some (Value.l xs) →
        interpolate ("$\x7b" ++ nm ++ "\x7d") v = joinSep ", " xs) := by
  refine ⟨?_, by decide, ?_⟩
  · intro v nm hne hw hmiss
    rw [interpolate_wrap v nm hne hw]
    obtain ⟨d⟩ := nm
    unfold replace_var
    rw [show lookupVar v ⟨d⟩ = none from hmiss]
    exact rfl
  · intro v nm xs hne hw hlist
    rw [interpolate_wrap v nm hne hw]
    obtain ⟨d⟩ := nm
    unfold replace_var
    rw [show lookupVar v ⟨d⟩ = some (Value.l xs) from hlist]

/-- Witness for C7: the general parts applied at `UNKNOWN_X` with the empty
mapping and at a list-valued binding. -/
theorem C7_unresolved_placeholder_preserved_witness :
    (("UNKNOWN_X" : String).data ≠ [] ∧ lookupVar [] "UNKNOWN_X" = none ∧
      interpolate "$\x7bUNKNOWN_X\x7d" [] = "$\x7bUNKNOWN_X\x7d")
    ∧ (lookupVar [("ARCHETYPES", Value.l ["a", "b"])] "ARCHETYPES" = some (Value.l ["a", "b"]) ∧
      interpolate "$\x7bARCHETYPES\x7d" [("ARCHETYPES", Value.l ["a", "b"])] = joinSep ", " ["a", "b"]) :=
  ⟨⟨by decide, by decide,
      C7_unresolved_placeholder_preserved.1 [] "UNKNOWN_X" (by decide) (by decide) (by decide)⟩,
    ⟨by decide,
      C7_unresolved_placeholder_preserved.2.2 [("ARCHETYPES", Value.l ["a", "b"])] "ARCHETYPES"
        ["a", "b"] (by decide) (by decide) (by decide)⟩⟩

/-- Claim C8: interpolation is idempotent on fully-resolved output — once the
result of `interpolate` contains no remaining placeholder, interpolating it
again with the same mapping returns it unchanged. -/
theorem C8_interpolation_idempotent (t : String) (v : List (String × Value))
    (h : hasPlaceholder (interpolate t v) = false) :
    interpolate (interpolate t v) v = interpolate t v := by
  unfold interpolate
  exact congrArg String.mk (interpolateChars_id v _ _ h)

/-- Witness for C8 on a template whose output is fully resolved. -/
theorem C8_interpolation_idempotent_witness :
    hasPlaceholder (interpolate "a $\x7bA\x7d b" [("A", Value.s "x")]) = false ∧
    interpolate (interpolate "a $\x7bA\x7d b" [("A", Value.s "x")]) [("A", Value.s "x")]
      = interpolate "a $\x7bA\x7d b" [("A", Value.s "x")] :=
  ⟨by decide, C8_interpolation_idempotent "a $\x7bA\x7d b" [("A", Value.s "x")] (by decide)⟩

/-! ### Lemmas about the pipeline -/

/-- The gap-type comprehension succeeds when every gap carries a `type` key. -/
theorem mapMEx_types_ok (gaps : List Gap) (h : ∀ g ∈ gaps, (g.type?).isSome) :
    mapMEx (fun g => getKey g.type? "type") gaps = .ok (gaps.map fun g => g.type?.getD "") := by
  induction gaps with
  | nil => rfl
  | cons g gs ih =>
    obtain ⟨t, ht⟩ := Option.isSome_iff_exists.1 (h g (by simp))
    have ih' := ih fun x hx => h x (by simp [hx])
    simp only [mapMEx]
    rw [ih']
    simp [getKey, ht]

/-- A gap without a `type` key makes the comprehension raise `KeyError('type')`. -/
theorem mapMEx_types_err (gaps : List Gap) (h : ∃ g ∈ gaps, g.type? = none) :
    mapMEx (fun g => getKey g.type? "type") gaps = .error (.keyError "type") := by
  induction gaps with
  | nil => simp at h
  | cons g gs ih =>
    match hgt : g.type? with
    | none => simp [mapMEx, getKey, hgt]
    | some t =>
      have htl : ∃ g ∈ gs, g.type? = none := by
        rcases h with ⟨g', hg', hnone⟩
        rcases List.mem_cons.1 hg' with rfl | hmem
        · rw [hgt] at hnone; cases hnone
        · exact ⟨g', hmem, hnone⟩
      have ih' := ih htl
      simp only [mapMEx]
      rw [ih']
      simp [getKey, hgt]

/-- The patch-plan loop succeeds on well-formed patches and copies each
file, content and action through. -/
theorem mapMEx_patch_ok (ps : List PatchInstruction)
    (h : ∀ q ∈ ps, q.file?.isSome ∧ q.action?.isSome) :
    mapMEx patchArtifact ps = .ok (ps.map fun q =>
      { file_path := q.file?.getD "", content := q.content?.getD "",
        action := q.action?.getD "", template := none }) := by
  induction ps with
  | nil => rfl
  | cons q qs ih =>
    obtain ⟨f, hf⟩ := Option.isSome_iff_exists.1 (h q (by simp)).1
    obtain ⟨a, ha⟩ := Option.isSome_iff_exists.1 (h q (by simp)).2
    have ih' := ih fun x hx => h x (by simp [hx])
    simp only [mapMEx]
    rw [ih']
    simp [patchArtifact, hf, ha]

/-- The "Gaps Addressed" lines succeed when every gap carries the three keys
the f-string reads. -/
theorem mapMEx_gapLine_ok (gaps : List Gap)
    (h : ∀ g ∈ gaps, (g.priority?).isSome ∧ (g.type?).isSome ∧ (g.description?).isSome) :
    ∃ lines, mapMEx gapLine gaps = .ok lines := by
  induction gaps with
  | nil => exact ⟨[], rfl⟩
  | cons g gs ih =>
    obtain ⟨p1, hp1⟩ := Option.isSome_iff_exists.1 (h g (by simp)).1
    obtain ⟨t1, ht1⟩ := Option.isSome_iff_exists.1 (h g (by simp)).2.1
    obtain ⟨d1, hd1⟩ := Option.isSome_iff_exists.1 (h g (by simp)).2.2
    obtain ⟨ls, hls⟩ := ih fun x hx => h x (by simp [hx])
    exact ⟨("- [" ++ p1 ++ "] " ++ t1 ++ ": " ++ d1) :: ls,
      by simp [mapMEx, gapLine, hp1, ht1, hd1, hls]⟩

/-- A validated plan has every required key present. -/
theorem validate_ok_hasKey (p : DiffPlan) (f : String) (hf : f ∈ required_fields)
    (h : validate_diff_plan p = .ok ()) : p.hasKey f = true := by
  unfold validate_diff_plan at h
  by_cases hQ : (required_fields.filter fun f => !p.hasKey f).isEmpty = true
  · by_contra hb
    have hmem : f ∈ required_fields.filter fun f => !p.hasKey f :=
      List.mem_filter.2 ⟨hf, by simp [hb]⟩
    rw [List.isEmpty_iff] at hQ
    simp [hQ] at hmem
  · simp [hQ] at h

/-- A validated plan has a non-empty archetype list. -/
theorem validate_ok_archetypes (p : DiffPlan) (h : validate_diff_plan p = .ok ()) :
    ∃ a, p.archetypes? = some a ∧ a ≠ [] := by
  have hk := validate_ok_hasKey p "archetypes" (by simp [required_fields]) h
  obtain ⟨a, ha⟩ := Option.isSome_iff_exists.1 (by simpa [DiffPlan.hasKey] using hk)
  refine ⟨a, ha, ?_⟩
  intro hnil
  subst hnil
  unfold validate_diff_plan at h
  by_cases hQ : (required_fields.filter fun f => !p.hasKey f).isEmpty = true
  · simp [hQ, ha] at h
  · simp [hQ] at h

/-- Lookup after a dict insertion. -/
theorem lookupDict_dictInsert (m : List (String × String)) (k v k' : String) :
    lookupDict (dictInsert m k v) k' = if k == k' then some v else lookupDict m k' := by
  induction m with
  | nil =>
    by_cases h : k == k' <;> simp [dictInsert, lookupDict, List.find?, h]
  | cons hd tl ih =>
    obtain ⟨a, b⟩ := hd
    by_cases hak : a == k
    · have : a = k := by simpa using hak
      subst this
      by_cases hak' : a == k' <;> simp [dictInsert, lookupDict, List.find?, hak']
    · by_cases hak' : a == k'
      · have : a = k' := by simpa using hak'
        subst this
        have hkk' : (k == a) = false := by
          cases h1 : (k == a) with
          | false => rfl
          | true =>
            have hka : k = a := by simpa using h1
            exact absurd hka.symm (by simpa using hak)
        simp [dictInsert, lookupDict, List.find?, hak, hak', hkk']
      · simp only [dictInsert, hak, if_false, Bool.false_eq_true]
        simp only [lookupDict, List.find?, hak']
        have := ih
        simp only [lookupDict] at this
        simp [this]

/-- Folding dict insertions computes the last value bound to each key. -/
theorem foldl_insert_lookup (l : List (String × String)) (m : List (String × String)) (k : String) :
    lookupDict (l.foldl (fun m p => dictInsert m p.1 p.2) m) k =
      l.foldl (fun acc p => if p.1 == k then some p.2 else acc) (lookupDict m k) := by
  induction l generalizing m with
  | nil => rfl
  | cons p ps ih =>
    rw [List.foldl_cons, List.foldl_cons, ih, lookupDict_dictInsert]

/-- A Python dict lookup returns the value of the last pair with that key. -/
theorem dict_lookup_last (l : List (String × String)) (k : String) :
    lookupDict (dictOfPairs l) k = lastAssoc l k := by
  unfold dictOfPairs lastAssoc
  rw [foldl_insert_lookup]
  rfl

/-- Inserting into a dict grows it by at most one entry. -/
theorem dictInsert_length (m : List (String × String)) (k v : String) :
    (dictInsert m k v).length ≤ m.length + 1 := by
  induction m with
  | nil => simp [dictInsert]
  | cons hd tl ih =>
    obtain ⟨a, b⟩ := hd
    by_cases h : a == k <;> simp [dictInsert, h]
    omega

/-- Folding dict insertions grows the dict by at most the number of pairs. -/
theorem foldl_insert_length (l : List (String × String)) (m : List (String × String)) :
    (l.foldl (fun m p => dictInsert m p.1 p.2) m).length ≤ m.length + l.length := by
  induction l generalizing m with
  | nil => simp
  | cons p ps ih =>
    calc (List.foldl _ (dictInsert m p.1 p.2) ps).length
        ≤ (dictInsert m p.1 p.2).length + ps.length := ih _
      _ ≤ (m.length + 1) + ps.length := by
          have := dictInsert_length m p.1 p.2
          omega
      _ = m.length + (p :: ps).length := by simp; omega

/-- A Python dict holds at most as many entries as pairs were inserted. -/
theorem dictOfPairs_length (l : List (String × String)) :
    (dictOfPairs l).length ≤ l.length := by
  simpa using foldl_insert_length l []

/-- Two strings whose data start with different characters differ. -/
theorem str_ne_of_head {a b : String} {x y : Char} {xs ys : List Char}
    (hx : a.data = x :: xs) (hy : b.data = y :: ys) (hxy : x ≠ y) : a ≠ b := by
  intro h
  subst h
  rw [hx] at hy
  cases hy
  exact hxy rfl

/-- Strings with equal data are equal. -/
theorem strExt {a b : String} (h : a.data = b.data) : a = b := by
  cases a; cases b; exact congrArg String.mk h

/-- String append is associative. -/
theorem str_assoc (a b c : String) : (a ++ b) ++ c = a ++ (b ++ c) :=
  strExt (List.append_assoc a.data b.data c.data)

/-- The empty string is a right identity for append. -/
theorem str_append_empty (a : String) : a ++ "" = a :=
  strExt (List.append_nil a.data)

/-- A validated plan has the given required key, as an `isSome` fact. -/
theorem validate_ok_repo (p : DiffPlan) (h : validate_diff_plan p = .ok ()) :
    (p.repo?).isSome := by
  simpa [DiffPlan.hasKey] using validate_ok_hasKey p "repo" (by simp [required_fields]) h

/-- A validated plan carries a confidence value. -/
theorem validate_ok_confidence (p : DiffPlan) (h : validate_diff_plan p = .ok ()) :
    (p.confidence?).isSome := by
  simpa [DiffPlan.hasKey] using validate_ok_hasKey p "confidence" (by simp [required_fields]) h

/-- The context build succeeds once `repo`, `confidence`, `archetypes` exist. -/
theorem build_template_context_ok (p : DiffPlan) (repo_url now_iso : String)
    (r : String) (conf : ℚ) (a : List String)
    (hr : p.repo? = some r) (hc : p.confidence? = some conf) (ha : p.archetypes? = some a) :
    ∃ c, build_template_context p repo_url now_iso = .ok c := by
  cases hE : build_template_context p repo_url now_iso with
  | ok c => exact ⟨c, rfl⟩
  | error e =>
    exfalso
    simp [build_template_context, getKey, hr, hc, ha] at hE

/-- Artifact generation succeeds when every gap has a `type` key and every
patch instruction has `file` and `action` keys. -/
theorem generate_artifacts_ok (store : TemplateStore) (p : DiffPlan) (c : TemplateContext)
    (hg : ∀ g ∈ p.gaps?.getD [], (g.type?).isSome)
    (hp : ∀ q ∈ p.patch_plan?.getD [], (q.file?).isSome ∧ (q.action?).isSome) :
    ∃ arts, generate_artifacts store p c = .ok arts := by
  cases hE : generate_artifacts store p c with
  | ok arts => exact ⟨arts, rfl⟩
  | error e =>
    exfalso
    simp [generate_artifacts, mapMEx_patch_ok _ hp, mapMEx_types_ok _ hg] at hE

/-- Description synthesis succeeds when every gap has the three keys read. -/
theorem generate_pr_description_ok (p : DiffPlan) (arts : List GeneratedArtifact)
    (c : TemplateContext)
    (hg : ∀ g ∈ p.gaps?.getD [], (g.priority?).isSome ∧ (g.type?).isSome ∧ (g.description?).isSome) :
    ∃ d, generate_pr_description p arts c = .ok d := by
  obtain ⟨ls, hls⟩ := mapMEx_gapLine_ok (p.gaps?.getD []) hg
  cases hE : generate_pr_description p arts c with
  | ok d => exact ⟨d, rfl⟩
  | error e =>
    exfalso
    simp [generate_pr_description, hls] at hE

/-! ### Claims -/

/-- Claim C3: for a plan that passes validation with confidence strictly below
the threshold, `process_diff_plan` returns Skipped whose reason embeds both
the measured confidence (`:.2f`) and the threshold (`str`), performs zero
Gateway calls, builds no context and generates no artifacts (the result is
produced before those steps). -/
theorem C3_below_threshold_skips (cfg : PRAuthorConfig) (store : TemplateStore)
    (gw : GatewayEnv) (now_iso : String) (now_epoch : ℤ) (p : DiffPlan) (repo_url : String)
    (dry_run : Bool) (conf : ℚ) (hv : validate_diff_plan p = .ok ())
    (hc : p.confidence? = some conf) (hlt : conf < cfg.confidence_threshold) :
    process_diff_plan cfg store gw now_iso now_epoch p repo_url dry_run =
      (.ok (.skipped ("Confidence " ++ pyFixed2 conf ++ " below threshold " ++
        ratDecRepr cfg.confidence_threshold) p.diff_plan_id?), [])
    ∧ (∃ pre post, "Confidence " ++ pyFixed2 conf ++ " below threshold " ++
        ratDecRepr cfg.confidence_threshold = pre ++ pyFixed2 conf ++ post)
    ∧ (∃ pre post, "Confidence " ++ pyFixed2 conf ++ " below threshold " ++
        ratDecRepr cfg.confidence_threshold = pre ++ ratDecRepr cfg.confidence_threshold ++ post) := by
  refine ⟨?_, ⟨"Confidence ", " below threshold " ++ ratDecRepr cfg.confidence_threshold, ?_⟩,
    ⟨"Confidence " ++ pyFixed2 conf ++ " below threshold ", "", ?_⟩⟩
  · simp [process_diff_plan, hv, hc, hlt]
  · rw [str_assoc]
  · rw [str_append_empty]

/-- Concrete input for the C3 witness. -/
def planC3 : DiffPlan :=
  { repo? := some "svc", archetypes? := some ["worker"], confidence? := some (mkRat 1 2),
    tech_stack? := some {}, gaps? := some [] }

/-- Witness for C3 at a plan of confidence 0.5 against the default 0.7. -/
theorem C3_below_threshold_skips_witness :
    validate_diff_plan planC3 = .ok () ∧ planC3.confidence? = some (mkRat 1 2) ∧
      (mkRat 1 2 < ({} : PRAuthorConfig).confidence_threshold) ∧
      process_diff_plan {} emptyStore ⟨1, "u"⟩ "TS" 0 planC3 "u" true =
        (.ok (.skipped ("Confidence " ++ pyFixed2 (mkRat 1 2) ++ " below threshold " ++
          ratDecRepr ({} : PRAuthorConfig).confidence_threshold) planC3.diff_plan_id?), []) :=
  ⟨rfl, rfl, by decide,
    (C3_below_threshold_skips {} emptyStore ⟨1, "u"⟩ "TS" 0 planC3 "u" true (mkRat 1 2)
      rfl rfl (by decide)).1⟩

/-- Claim C4: a plan missing a required field, or with an empty archetype
list, makes `process_diff_plan` raise the validation error before any other
step: the error is surfaced and the run performs no Gateway call and produces
nothing. -/
theorem C4_validation_error_aborts (cfg : PRAuthorConfig) (store : TemplateStore)
    (gw : GatewayEnv) (now_iso : String) (now_epoch : ℤ) (p : DiffPlan) (repo_url : String)
    (dry_run : Bool)
    (h : p.repo? = none ∨ p.archetypes? = none ∨ p.confidence? = none ∨
      p.tech_stack? = none ∨ p.gaps? = none ∨ p.archetypes? = some []) :
    ∃ e, validate_diff_plan p = .error e ∧
      process_diff_plan cfg store gw now_iso now_epoch p repo_url dry_run = (.error e, []) := by
  have herr : ∃ e, validate_diff_plan p = .error e := by
    by_cases hQ : (required_fields.filter fun f => !p.hasKey f).isEmpty = true
    · have hall : ∀ f ∈ required_fields, p.hasKey f = true := by
        intro f hf
        by_contra hb
        have hmem : f ∈ required_fields.filter fun f => !p.hasKey f :=
          List.mem_filter.2 ⟨hf, by simp [hb]⟩
        rw [List.isEmpty_iff] at hQ
        simp [hQ] at hmem
      rcases h with h | h | h | h | h | h
      · have := hall "repo" (by simp [required_fields])
        simp [DiffPlan.hasKey, h] at this
      · have := hall "archetypes" (by simp [required_fields])
        simp [DiffPlan.hasKey, h] at this
      · have := hall "confidence" (by simp [required_fields])
        simp [DiffPlan.hasKey, h] at this
      · have := hall "tech_stack" (by simp [required_fields])
        simp [DiffPlan.hasKey, h] at this
      · have := hall "gaps" (by simp [required_fields])
        simp [DiffPlan.hasKey, h] at this
      · exact ⟨.valueError "Diff Plan has no archetypes detected",
          by simp [validate_diff_plan, hQ, h]⟩
    · exact ⟨.valueError ("Invalid Diff Plan: missing fields " ++
        pyStrList (required_fields.filter fun f => !p.hasKey f)),
        by simp [validate_diff_plan, hQ]⟩
  obtain ⟨e, he⟩ := herr
  exact ⟨e, he, by simp [process_diff_plan, he]⟩

/-- Concrete input for the C4 witness: the `gaps` key is missing. -/
def planC4 : DiffPlan :=
  { repo? := some "svc", archetypes? := some ["worker"], confidence? := some 1,
    tech_stack? := some {} }

/-- Witness for C4 at a plan missing its `gaps` field. -/
theorem C4_validation_error_aborts_witness :
    planC4.gaps? = none ∧
      (∃ e, validate_diff_plan planC4 = .error e ∧
        process_diff_plan {} emptyStore ⟨1, "u"⟩ "TS" 0 planC4 "u" false = (.error e, [])) :=
  ⟨rfl, C4_validation_error_aborts {} emptyStore ⟨1, "u"⟩ "TS" 0 planC4 "u" false
    (Or.inr (Or.inr (Or.inr (Or.inr (Or.inl rfl)))))⟩

/-- Claim C9: a plan that passes validation and the gate but contains a gap
without a `type` key aborts the whole run with an uncaught `KeyError('type')`
from the gap-type list comprehensions of `_generate_artifacts`; the per-gap
render recovery does not cover it. -/
theorem C9_missing_gap_type_aborts (cfg : PRAuthorConfig) (store : TemplateStore)
    (gw : GatewayEnv) (now_iso : String) (now_epoch : ℤ) (p : DiffPlan) (repo_url : String)
    (dry_run : Bool) (conf : ℚ)
    (hv : validate_diff_plan p = .ok ()) (hc : p.confidence? = some conf)
    (hge : cfg.confidence_threshold ≤ conf)
    (hbad : ∃ g ∈ p.gaps?.getD [], g.type? = none)
    (hp : ∀ q ∈ p.patch_plan?.getD [], (q.file?).isSome ∧ (q.action?).isSome) :
    process_diff_plan cfg store gw now_iso now_epoch p repo_url dry_run =
      (.error (.keyError "type"), []) := by
  obtain ⟨r, hr⟩ := Option.isSome_iff_exists.1 (validate_ok_repo p hv)
  obtain ⟨a, ha, _⟩ := validate_ok_archetypes p hv
  obtain ⟨c, hctx⟩ := build_template_context_ok p repo_url now_iso r conf a hr hc ha
  have hnl : ¬(conf < cfg.confidence_threshold) := not_lt.2 hge
  have hgen : generate_artifacts store p c = .error (.keyError "type") := by
    simp only [generate_artifacts, mapMEx_patch_ok _ hp, mapMEx_types_err _ hbad]
  simp [process_diff_plan, hv, hc, hnl, hctx, hgen]

/-- Concrete input for the C9 witness: one gap with no keys at all. -/
def planC9 : DiffPlan :=
  { repo? := some "svc", archetypes? := some ["worker"], confidence? := some 1,
    tech_stack? := some {}, gaps? := some [{}] }

/-- Witness for C9. -/
theorem C9_missing_gap_type_aborts_witness :
    validate_diff_plan planC9 = .ok () ∧
      (({} : PRAuthorConfig).confidence_threshold ≤ (1 : ℚ)) ∧
      (∃ g ∈ planC9.gaps?.getD [], g.type? = none) ∧
      process_diff_plan {} emptyStore ⟨1, "u"⟩ "TS" 0 planC9 "u" true =
        (.error (.keyError "type"), []) :=
  ⟨rfl, by decide, ⟨{}, by simp [planC9], rfl⟩,
    C9_missing_gap_type_aborts {} emptyStore ⟨1, "u"⟩ "TS" 0 planC9 "u" true 1
      rfl rfl (by decide) ⟨{}, by simp [planC9], rfl⟩ (by simp [planC9])⟩

/-- Concrete valid plan used by several claims: one empty gap list, no patches. -/
def planC2 : DiffPlan :=
  { repo? := some "svc", archetypes? := some ["worker"], confidence? := some 1,
    tech_stack? := some {}, gaps? := some [] }

/-- Counterexample to C2 as stated: with auto-publish disabled and
`dry_run = false`, a valid plan above the threshold yields the third
`artifacts_generated` outcome, neither DryRun nor Published. -/
theorem C2_counterexample_third_outcome :
    (process_diff_plan { auto_create_pr := false } emptyStore ⟨1, "u"⟩ "TS" 0 planC2 "u" false).1
        = .ok (.artifactsGenerated none 1)
    ∧ ProcResult.isPublished (.artifactsGenerated none 1) = false
    ∧ ProcResult.isDryRun (.artifactsGenerated none 1) = false :=
  ⟨rfl, rfl, rfl⟩

/-- Claim C2 (amended): for a plan passing validation with confidence at or
above the threshold, whose gaps carry `type`, `priority` and `description`
keys and whose patch instructions carry `file` and `action` keys,
`process_diff_plan` returns exactly one result: DryRun when `dry_run` is
true; otherwise Published when auto-publish is enabled, and the
artifacts-generated outcome when it is disabled. -/
theorem C2_amended_exactly_one_outcome (cfg : PRAuthorConfig) (store : TemplateStore)
    (gw : GatewayEnv) (now_iso : String) (now_epoch : ℤ) (p : DiffPlan) (repo_url : String)
    (conf : ℚ) (hv : validate_diff_plan p = .ok ()) (hc : p.confidence? = some conf)
    (hge : cfg.confidence_threshold ≤ conf)
    (hg : ∀ g ∈ p.gaps?.getD [],
      (g.type?).isSome ∧ (g.priority?).isSome ∧ (g.description?).isSome)
    (hp : ∀ q ∈ p.patch_plan?.getD [], (q.file?).isSome ∧ (q.action?).isSome) :
    (∃ a d, process_diff_plan cfg store gw now_iso now_epoch p repo_url true =
      (.ok (.dryRun p.diff_plan_id? a d), []))
    ∧ (cfg.auto_create_pr = true →
        ∃ n u b fc ar ga tr, process_diff_plan cfg store gw now_iso now_epoch p repo_url false =
          (.ok (.published p.diff_plan_id? n u b fc ar ga), tr))
    ∧ (cfg.auto_create_pr = false →
        ∃ n, process_diff_plan cfg store gw now_iso now_epoch p repo_url false =
          (.ok (.artifactsGenerated p.diff_plan_id? n), [])) := by
  obtain ⟨r, hr⟩ := Option.isSome_iff_exists.1 (validate_ok_repo p hv)
  obtain ⟨a, ha, _⟩ := validate_ok_archetypes p hv
  obtain ⟨c, hctx⟩ := build_template_context_ok p repo_url now_iso r conf a hr hc ha
  obtain ⟨arts, hgen⟩ := generate_artifacts_ok store p c (fun g hgm => (hg g hgm).1) hp
  obtain ⟨d, hdesc⟩ := generate_pr_description_ok p arts c
    (fun g hgm => ⟨(hg g hgm).2.1, (hg g hgm).1, (hg g hgm).2.2⟩)
  have hnl : ¬(conf < cfg.confidence_threshold) := not_lt.2 hge
  have htypesOk := mapMEx_types_ok (p.gaps?.getD []) (fun g hgm => (hg g hgm).1)
  refine ⟨⟨arts.map fun x => (x.file_path, x.action), d, ?_⟩, ?_, ?_⟩
  · simp [process_diff_plan, hv, hc, hnl, hctx, hgen, hdesc]
  · intro hauto
    simp only [process_diff_plan, hv, hc, Option.getD_some, if_neg hnl, hctx, hgen, hdesc,
      hauto, if_true, create_pull_request, htypesOk]
    simp only [getKey, hr, hc, ha]
    exact ⟨_, _, _, _, _, _, _, rfl⟩
  · intro hauto
    refine ⟨arts.length, ?_⟩
    simp [process_diff_plan, hv, hc, hnl, hctx, hgen, hdesc, hauto]

/-- Witness for the amended C2 at a concrete valid plan with the default
configuration (auto-publish enabled) and with it disabled. -/
theorem C2_amended_exactly_one_outcome_witness :
    validate_diff_plan planC2 = .ok () ∧
      (({} : PRAuthorConfig).confidence_threshold ≤ (1 : ℚ)) ∧
      (∃ a d, process_diff_plan {} emptyStore ⟨1, "u"⟩ "TS" 0 planC2 "u" true =
        (.ok (.dryRun planC2.diff_plan_id? a d), [])) ∧
      (∃ n u b fc ar ga tr, process_diff_plan {} emptyStore ⟨1, "u"⟩ "TS" 0 planC2 "u" false =
        (.ok (.published planC2.diff_plan_id? n u b fc ar ga), tr)) :=
  ⟨rfl, by decide,
    (C2_amended_exactly_one_outcome {} emptyStore ⟨1, "u"⟩ "TS" 0 planC2 "u" 1
      rfl rfl (by decide) (by simp [planC2]) (by simp [planC2])).1,
    (C2_amended_exactly_one_outcome {} emptyStore ⟨1, "u"⟩ "TS" 0 planC2 "u" 1
      rfl rfl (by decide) (by simp [planC2]) (by simp [planC2])).2.1 rfl⟩

/-- `mapMEx` only depends on the images of the elements: replacing a middle
element by one with the same image leaves the result unchanged. -/
theorem mapMEx_congr_middle {α β : Type} (f : α → Except PyErr β) (l1 l2 : List α) (a b : α)
    (hab : f a = f b) : mapMEx f (l1 ++ a :: l2) = mapMEx f (l1 ++ b :: l2) := by
  induction l1 with
  | nil => simp [mapMEx, hab]
  | cons x xs ih => simp [mapMEx, ih]

/-- Claim C5: when resolution or rendering of one gap's template fails, the
failure is caught: artifact generation behaves exactly as if that gap carried
no template (its artifacts are simply absent), and the run still completes
normally when the usual key hypotheses hold. -/
theorem C5_render_failure_recovered (store : TemplateStore) (c : TemplateContext)
    (p : DiffPlan) (l1 l2 : List Gap) (g : Gap) (t : String)
    (hg : p.gaps? = some (l1 ++ g :: l2)) (ht : g.template? = some t) (hne : t ≠ "")
    (hfail : store t = none) :
    generate_artifacts store p c =
      generate_artifacts store { p with gaps? := some (l1 ++ { g with template? := none } :: l2) } c
    ∧ ((∀ g' ∈ l1 ++ g :: l2, (g'.type?).isSome) →
        (∀ q ∈ p.patch_plan?.getD [], (q.file?).isSome ∧ (q.action?).isSome) →
        ∃ arts, generate_artifacts store p c = .ok arts) := by
  constructor
  · have hgap : gapArtifacts store c g = [] := by
      simp [gapArtifacts, ht, hne, render_template, hfail]
    have hgap' : gapArtifacts store c { g with template? := none } = [] := by
      simp [gapArtifacts]
    have hflat : (l1 ++ g :: l2).flatMap (gapArtifacts store c) =
        (l1 ++ { g with template? := none } :: l2).flatMap (gapArtifacts store c) := by
      simp [List.flatMap_append, List.flatMap_cons, hgap, hgap']
    have htypeseq : mapMEx (fun g => getKey g.type? "type") (l1 ++ g :: l2) =
        mapMEx (fun g => getKey g.type? "type") (l1 ++ { g with template? := none } :: l2) :=
      mapMEx_congr_middle _ l1 l2 g { g with template? := none } rfl
    simp only [generate_artifacts, hg, Option.getD_some, hflat, htypeseq]
  · intro hgw hp
    exact generate_artifacts_ok store p c (by rw [hg]; simpa using hgw) hp

/-- Concrete gap and plans for the C5 witness. -/
def gapC5 : Gap :=
  { type? := some "missing_otel", priority? := some "P1", description? := some "no spans",
    template? := some "kafka-consumer-otel-java" }

/-- Plan whose single gap names a template the empty store cannot resolve. -/
def planC5 : DiffPlan :=
  { repo? := some "svc", archetypes? := some ["worker"], confidence? := some 1,
    tech_stack? := some {}, gaps? := some [gapC5] }

/-- A concrete context for the C5 witness. -/
def ctxC5 : TemplateContext :=
  { service_name := "svc", service_urn := "urn:svc:prod:svc", namespace_ := "default",
    input_topic := "", output_topic := "", owner_team := "platform-team",
    consumer_group := "svc-cg", schema_id := "svc.v1", otel_version := "1.32.0",
    timestamp := "TS", diff_plan_id := "dp-svc", confidence := 1,
    archetypes := ["worker"], language := "java" }

/-- Witness for C5 at the empty store. -/
theorem C5_render_failure_recovered_witness :
    planC5.gaps? = some ([] ++ gapC5 :: []) ∧ gapC5.template? = some "kafka-consumer-otel-java" ∧
      emptyStore "kafka-consumer-otel-java" = none ∧
      (generate_artifacts emptyStore planC5 ctxC5 =
        generate_artifacts emptyStore
          { planC5 with gaps? := some ([] ++ { gapC5 with template? := none } :: []) } ctxC5) ∧
      (∃ arts, generate_artifacts emptyStore planC5 ctxC5 = .ok arts) :=
  ⟨rfl, rfl, rfl,
    (C5_render_failure_recovered emptyStore ctxC5 planC5 [] [] gapC5 "kafka-consumer-otel-java"
      rfl rfl (by decide) rfl).1,
    (C5_render_failure_recovered emptyStore ctxC5 planC5 [] [] gapC5 "kafka-consumer-otel-java"
      rfl rfl (by decide) rfl).2 (by simp [gapC5]) (by simp [planC5])⟩

/-- The membership test on the extracted type list agrees with `any` over the
gaps when every gap carries a `type` key. -/
theorem types_contains_iff (gaps : List Gap) (hg : ∀ g ∈ gaps, (g.type?).isSome) (t : String) :
    ((gaps.map fun g => g.type?.getD "").contains t) = gaps.any (fun g => g.type? == some t) := by
  induction gaps with
  | nil => rfl
  | cons g gs ih =>
    obtain ⟨x, hx⟩ := Option.isSome_iff_exists.1 (hg g (by simp))
    have ih' := ih fun y hy => hg y (by simp [hy])
    simp only [List.map_cons, List.contains_cons, List.any_cons, hx, ih', Option.getD_some]
    by_cases hxt : x = t
    · subst hxt
      simp
    · have h1 : (t == x) = false := beq_eq_false_iff_ne.mpr fun h => hxt h.symm
      have h2 : ((some x : Option String) == some t) = false := by
        simp [hxt]
      rw [h1, h2]

/-- The head character of a lineage conditional path. -/
theorem lineage_path_head (s : String) :
    ("lineage/" ++ s ++ ".yaml").data = 'l' :: (("ineage/" ++ s).data ++ ".yaml".data) := rfl

/-- The generated telemetry-test path never lies under `lineage/`. -/
theorem test_path_ne_lineage (c : TemplateContext) (s : String) :
    get_test_path c ≠ "lineage/" ++ s ++ ".yaml" := by
  unfold get_test_path
  split_ifs <;> exact str_ne_of_head rfl (lineage_path_head s) (by decide)

/-- Count of artifacts at a path in a generation result (`0` on an error). -/
def countOkAtPath (r : Except PyErr (List GeneratedArtifact)) (path : String) : ℕ :=
  match r with
  | .ok arts => arts.countP (fun a => a.file_path == path)
  | .error _ => 0

set_option maxHeartbeats 1000000 in
/-- Claim C6 (amended): for a plan whose gaps all carry a `type` key, whose
patch instructions are well-formed and do not target
`lineage/{service_name}.yaml`, and whose per-gap template artifacts avoid that
path, generation succeeds and the artifact list holds exactly one artifact at
`lineage/{service_name}.yaml` when some gap has type `missing_lineage_spec`,
and none otherwise. -/
theorem C6_amended_lineage_artifact (store : TemplateStore) (p : DiffPlan) (c : TemplateContext)
    (hg : ∀ g ∈ p.gaps?.getD [], (g.type?).isSome)
    (hp : ∀ q ∈ p.patch_plan?.getD [], (q.file?).isSome ∧ (q.action?).isSome)
    (hpn : ∀ q ∈ p.patch_plan?.getD [], q.file? ≠ some ("lineage/" ++ c.service_name ++ ".yaml"))
    (hgn : ∀ g ∈ p.gaps?.getD [], ∀ art ∈ gapArtifacts store c g,
        art.file_path ≠ "lineage/" ++ c.service_name ++ ".yaml") :
    (∃ arts, generate_artifacts store p c = .ok arts) ∧
      countOkAtPath (generate_artifacts store p c) ("lineage/" ++ c.service_name ++ ".yaml") =
        (if (p.gaps?.getD []).any (fun g => g.type? == some "missing_lineage_spec")
         then 1 else 0) := by
  have hpatch := mapMEx_patch_ok _ hp
  have htypes := mapMEx_types_ok _ hg
  refine ⟨generate_artifacts_ok store p c hg hp, ?_⟩
  have hgaps0 : ((p.gaps?.getD []).flatMap (gapArtifacts store c)).countP
      (fun a => a.file_path == "lineage/" ++ c.service_name ++ ".yaml") = 0 := by
    rw [List.countP_eq_zero]
    intro a ha
    obtain ⟨g, hgm, ham⟩ := List.mem_flatMap.1 ha
    simpa using hgn g hgm a ham
  have hpatch0 : ((p.patch_plan?.getD []).map fun q =>
      ({ file_path := q.file?.getD "", content := q.content?.getD "",
         action := q.action?.getD "", template := none } : GeneratedArtifact)).countP
      (fun a => a.file_path == "lineage/" ++ c.service_name ++ ".yaml") = 0 := by
    rw [List.countP_eq_zero]
    intro a ha
    obtain ⟨q, hqm, rfl⟩ := List.mem_map.1 ha
    obtain ⟨f, hf⟩ := Option.isSome_iff_exists.1 (hp q hqm).1
    have hne := hpn q hqm
    rw [hf] at hne
    simp only [hf, Option.getD_some, beq_iff_eq]
    exact fun hEq => hne (congrArg some hEq)
  have hrb : (("RUNBOOK.md" : String) == "lineage/" ++ c.service_name ++ ".yaml") = false := by
    rw [beq_eq_false_iff_ne]
    exact str_ne_of_head rfl (lineage_path_head c.service_name) (by decide)
  have hcon : (("contracts/" ++ c.service_name ++ ".yaml" : String) ==
      "lineage/" ++ c.service_name ++ ".yaml") = false := by
    rw [beq_eq_false_iff_ne]
    exact str_ne_of_head rfl (lineage_path_head c.service_name) (by decide)
  have htst : ((get_test_path c : String) == "lineage/" ++ c.service_name ++ ".yaml") = false := by
    rw [beq_eq_false_iff_ne]
    exact test_path_ne_lineage c c.service_name
  rw [← types_contains_iff _ hg]
  simp only [generate_artifacts, hpatch, htypes, countOkAtPath]
  generalize hGA : (p.gaps?.getD []).flatMap (gapArtifacts store c) = GA at hgaps0 ⊢
  generalize hPA : (p.patch_plan?.getD []).map (fun q =>
      ({ file_path := q.file?.getD "", content := q.content?.getD "",
         action := q.action?.getD "", template := none } : GeneratedArtifact)) = PA
    at hpatch0 ⊢
  split_ifs <;>
    simp [List.countP_append, List.countP_cons, hgaps0, hpatch0, hrb, hcon, htst]

/-- Plan whose patch plan collides with the conditional lineage path. -/
def planC6 : DiffPlan :=
  { repo? := some "svc", archetypes? := some ["worker"], confidence? := some 1,
    tech_stack? := some {}, gaps? := some [],
    patch_plan? := some [{ file? := some "lineage/svc.yaml", action? := some "create" }] }

/-- Number of dry-run manifest entries at a path (`0` for other outcomes). -/
def dryRunPathCount (r : Except PyErr ProcResult × List GatewayCall) (path : String) : ℕ :=
  match r.1 with
  | .ok (.dryRun _ arts _) => (arts.filter (fun pa => pa.1 == path)).length
  | _ => 0

/-- Counterexample to C6 as stated: a plan with no `missing_lineage_spec` gap
whose patch plan writes `lineage/svc.yaml` still yields one artifact at
`lineage/{service_name}.yaml`, where the claim demands none. -/
theorem C6_counterexample_patch_collision :
    dryRunPathCount (process_diff_plan {} emptyStore ⟨1, "u"⟩ "TS" 0 planC6 "u" true)
        "lineage/svc.yaml" = 1
    ∧ (planC6.gaps?.getD []).any (fun g => g.type? == some "missing_lineage_spec") = false :=
  ⟨rfl, rfl⟩

/-- Plan with one lineage gap and no patches, for the C6 witness. -/
def planC6w : DiffPlan :=
  { repo? := some "svc", archetypes? := some ["worker"], confidence? := some 1,
    tech_stack? := some {},
    gaps? := some [{ type? := some "missing_lineage_spec", priority? := some "P2",
                     description? := some "no lineage spec" }] }

/-- Witness for the amended C6: exactly one lineage artifact appears. -/
theorem C6_amended_lineage_artifact_witness :
    (∀ g ∈ planC6w.gaps?.getD [], (g.type?).isSome) ∧
      (∃ arts, generate_artifacts emptyStore planC6w ctxC5 = .ok arts) ∧
      countOkAtPath (generate_artifacts emptyStore planC6w ctxC5)
          ("lineage/" ++ ctxC5.service_name ++ ".yaml") =
        (if (planC6w.gaps?.getD []).any (fun g => g.type? == some "missing_lineage_spec")
         then 1 else 0) :=
  ⟨by simp [planC6w],
    (C6_amended_lineage_artifact emptyStore planC6w ctxC5 (by simp [planC6w])
      (by simp [planC6w]) (by simp [planC6w]) (by simp [planC6w, gapArtifacts])).1,
    (C6_amended_lineage_artifact emptyStore planC6w ctxC5 (by simp [planC6w])
      (by simp [planC6w]) (by simp [planC6w]) (by simp [planC6w, gapArtifacts])).2⟩

/-- Claim C10: when publishing, the file set handed to the commit call is a
dict keyed by artifact path — for duplicated paths only the later artifact's
content survives (`dict_lookup_last`), the dict has at most as many files as
artifacts, while the Published result's `files_changed` equals the full
artifact-list length. -/
theorem C10_commit_keyed_by_path (cfg : PRAuthorConfig) (store : TemplateStore)
    (gw : GatewayEnv) (now_iso : String) (now_epoch : ℤ) (p : DiffPlan) (repo_url : String)
    (conf : ℚ) (r : String) (a : List String)
    (hv : validate_diff_plan p = .ok ()) (hc : p.confidence? = some conf)
    (hge : cfg.confidence_threshold ≤ conf) (hr : p.repo? = some r) (ha : p.archetypes? = some a)
    (hg : ∀ g ∈ p.gaps?.getD [],
      (g.type?).isSome ∧ (g.priority?).isSome ∧ (g.description?).isSome)
    (hp : ∀ q ∈ p.patch_plan?.getD [], (q.file?).isSome ∧ (q.action?).isSome)
    (hauto : cfg.auto_create_pr = true) :
    ∃ arts d,
      (build_template_context p repo_url now_iso).map (generate_artifacts store p) =
        .ok (.ok arts) ∧
      (∃ msg, process_diff_plan cfg store gw now_iso now_epoch p repo_url false =
        (.ok (.published p.diff_plan_id? gw.pr_number gw.pr_url
            (cfg.branch_prefix_str ++ "-" ++ r ++ "-" ++ toString now_epoch)
            arts.length a ((p.gaps?.getD []).map fun g => g.type?.getD "")),
          [.createBranch repo_url (cfg.branch_prefix_str ++ "-" ++ r ++ "-" ++ toString now_epoch)
              cfg.default_branch,
            .commitFiles repo_url (cfg.branch_prefix_str ++ "-" ++ r ++ "-" ++ toString now_epoch)
              (dictOfPairs (arts.map fun x => (x.file_path, x.content))) msg,
            .createPullRequest repo_url
              ("feat(observability): Add " ++ joinSep ", " (a.take 2) ++ " instrumentation") d
              (cfg.branch_prefix_str ++ "-" ++ r ++ "-" ++ toString now_epoch)
              cfg.default_branch (cfg.pr_labels ++ (a.take 2).map fun x => "archetype:" ++ x)]))
      ∧ (∀ k, lookupDict (dictOfPairs (arts.map fun x => (x.file_path, x.content))) k =
          lastAssoc (arts.map fun x => (x.file_path, x.content)) k)
      ∧ (dictOfPairs (arts.map fun x => (x.file_path, x.content))).length ≤ arts.length := by
  obtain ⟨c, hctx⟩ := build_template_context_ok p repo_url now_iso r conf a hr hc ha
  obtain ⟨arts, hgen⟩ := generate_artifacts_ok store p c (fun g hgm => (hg g hgm).1) hp
  obtain ⟨d, hdesc⟩ := generate_pr_description_ok p arts c
    (fun g hgm => ⟨(hg g hgm).2.1, (hg g hgm).1, (hg g hgm).2.2⟩)
  have hnl : ¬(conf < cfg.confidence_threshold) := not_lt.2 hge
  have htypesOk := mapMEx_types_ok (p.gaps?.getD []) (fun g hgm => (hg g hgm).1)
  refine ⟨arts, d, ?_, ?_, fun k => dict_lookup_last _ k,
    by simpa using dictOfPairs_length (arts.map fun x => (x.file_path, x.content))⟩
  · rw [hctx]
    simp only [Except.map]
    rw [hgen]
  · simp only [process_diff_plan, hv, hc, Option.getD_some, if_neg hnl, hctx, hgen, hdesc,
      hauto, if_true, create_pull_request, htypesOk]
    simp only [getKey, hr, hc, ha]
    exact ⟨_, rfl⟩

/-- Plan with two patch instructions writing the same path, for the C10
witness. -/
def planC10 : DiffPlan :=
  { repo? := some "svc", archetypes? := some ["worker"], confidence? := some 1,
    tech_stack? := some {}, gaps? := some [],
    patch_plan? := some [
      { file? := some "a.txt", action? := some "create", content? := some "v1" },
      { file? := some "a.txt", action? := some "create", content? := some "v2" }] }

/-- Size of the file set passed to the commit call of a run's trace. -/
def committedCount (r : Except PyErr ProcResult × List GatewayCall) : ℕ :=
  r.2.foldl (fun acc call =>
    match call with
    | GatewayCall.commitFiles _ _ files _ => files.length
    | _ => acc) 0

/-- Content committed for a path by the commit call of a run's trace. -/
def committedContent (r : Except PyErr ProcResult × List GatewayCall) (path : String) :
    Option String :=
  r.2.foldl (fun acc call =>
    match call with
    | GatewayCall.commitFiles _ _ files _ => lookupDict files path
    | _ => acc) none

/-- `files_changed` reported by a Published outcome (`0` otherwise). -/
def filesChangedOf (r : Except PyErr ProcResult × List GatewayCall) : ℕ :=
  match r.1 with
  | .ok (.published _ _ _ _ fc _ _) => fc
  | _ => 0

/-- Witness for C10: two patches on the same path — the commit holds two
files (the later content wins) while `files_changed` reports three. -/
theorem C10_commit_keyed_by_path_witness :
    validate_diff_plan planC10 = .ok () ∧
      (∃ arts d,
        (build_template_context planC10 "u" "TS").map (generate_artifacts emptyStore planC10) =
          .ok (.ok arts) ∧
        (∃ msg, process_diff_plan {} emptyStore ⟨1, "u"⟩ "TS" 0 planC10 "u" false =
          (.ok (.published planC10.diff_plan_id? (1 : ℕ) "u"
              (({} : PRAuthorConfig).branch_prefix_str ++ "-" ++ "svc" ++ "-" ++ toString (0 : ℤ))
              arts.length ["worker"] ((planC10.gaps?.getD []).map fun g => g.type?.getD "")),
            [.createBranch "u" (({} : PRAuthorConfig).branch_prefix_str ++ "-" ++ "svc" ++ "-" ++
                toString (0 : ℤ)) ({} : PRAuthorConfig).default_branch,
              .commitFiles "u" (({} : PRAuthorConfig).branch_prefix_str ++ "-" ++ "svc" ++ "-" ++
                toString (0 : ℤ))
                (dictOfPairs (arts.map fun x => (x.file_path, x.content))) msg,
              .createPullRequest "u"
                ("feat(observability): Add " ++ joinSep ", " (["worker"].take 2) ++ " instrumentation")
                d (({} : PRAuthorConfig).branch_prefix_str ++ "-" ++ "svc" ++ "-" ++ toString (0 : ℤ))
                ({} : PRAuthorConfig).default_branch
                (({} : PRAuthorConfig).pr_labels ++ (["worker"].take 2).map fun x => "archetype:" ++ x)]))
        ∧ (∀ k, lookupDict (dictOfPairs (arts.map fun x => (x.file_path, x.content))) k =
            lastAssoc (arts.map fun x => (x.file_path, x.content)) k)
        ∧ (dictOfPairs (arts.map fun x => (x.file_path, x.content))).length ≤ arts.length) ∧
      committedCount (process_diff_plan {} emptyStore ⟨1, "u"⟩ "TS" 0 planC10 "u" false) = 2 ∧
      filesChangedOf (process_diff_plan {} emptyStore ⟨1, "u"⟩ "TS" 0 planC10 "u" false) = 3 ∧
      committedContent (process_diff_plan {} emptyStore ⟨1, "u"⟩ "TS" 0 planC10 "u" false) "a.txt"
        = some "v2" :=
  ⟨rfl,
    C10_commit_keyed_by_path {} emptyStore ⟨1, "u"⟩ "TS" 0 planC10 "u" 1 "svc" ["worker"]
      rfl rfl (by decide) rfl rfl (by simp [planC10]) (by simp [planC10]) rfl,
    rfl, rfl, rfl⟩

/-- The example Diff Plan of the specification (threshold 0.7 is the default
configuration). -/
def planC1 : DiffPlan :=
  { repo? := some "orders-enricher", archetypes? := some ["kafka-microservice"],
    confidence? := some (mkRat 87 100), tech_stack? := some { language? := some "java" },
    gaps? := some [{ type? := some "missing_otel", priority? := some "P1",
                     description? := some "no spans",
                     template? := some "kafka-consumer-otel-java" }] }

set_option maxRecDepth 100000 in
/-- Claim C1 evaluated on the code (code bug): the dry run of the example plan
yields exactly `RUNBOOK.md` and one telemetry-test artifact — nothing under
`lineage/` or `contracts/` — but the test path is
`.../OrdersenricherOtelInterceptorTest.java` (from
`service_name.replace('-','').title()`), not the claimed
`.../OrdersEnricherOtelInterceptorTest.java`; the rendered file itself names
the class with `CLASS_NAME = "OrdersEnricher"`, so the generated Java file
name contradicts the class it declares. -/
theorem C1_example_artifacts_eval :
    (∃ d, process_diff_plan {} emptyStore ⟨1, "u"⟩ "TS" 0 planC1 "u" true =
      (.ok (.dryRun none
        [("RUNBOOK.md", "create"),
         ("src/test/java/com/company/orders/enricher/otel/OrdersenricherOtelInterceptorTest.java",
          "create")] d), []))
    ∧ ("src/test/java/com/company/orders/enricher/otel/OrdersenricherOtelInterceptorTest.java" ≠
        "src/test/java/com/company/orders/enricher/otel/OrdersEnricherOtelInterceptorTest.java")
    ∧ (∃ c, build_template_context planC1 "u" "TS" = .ok c ∧
        get_test_path c =
          "src/test/java/com/company/orders/enricher/otel/OrdersenricherOtelInterceptorTest.java" ∧
        lookupVar c.to_dict "CLASS_NAME" = some (.s "OrdersEnricher") ∧
        strContains builtin_java_test_template "$\x7bCLASS_NAME\x7dOtelInterceptorTest" = true) :=
  ⟨⟨_, rfl⟩, by decide, ⟨_, rfl, rfl, rfl, by decide⟩⟩

end DataObs
